import Mathlib

/-!
Verification of the Charlie-OPORD-Wizard document assembly model.

The Python source is shallowly embedded: dataclasses become structures with
defaulted fields, Python dicts become association lists (`List (String × String)`)
or structures of `Option`-valued fields (absent key = `none`), f-strings become
explicit concatenation, and Python string truthiness (`x or d`) becomes `pyOr`.
-/

set_option maxRecDepth 32768

namespace OpordWizard

/-! ## String helpers (Python semantics) -/

/-- Python `x or d` for strings: the empty string is falsy. -/
def pyOr (v d : String) : String := if v = "" then d else v

/-- `"\n".join(lines)` from Python. -/
def joinNL : List String → String
  | [] => ""
  | [s] => s
  | s :: rest => s ++ "\n" ++ joinNL rest

/-- Whitespace characters stripped by Python `str.strip()` (ASCII subset). -/
def isPyWs (c : Char) : Bool :=
  c == ' ' || c == '\t' || c == '\n' || c == '\r' || c == '\x0b' || c == '\x0c'

/-- Python `str.strip()`. -/
def pyStrip (s : String) : String :=
  ⟨((s.data.dropWhile isPyWs).reverse.dropWhile isPyWs).reverse⟩

/-- Boolean test: `p` is a prefix of `s` (on character lists). -/
def hasPfxCh : List Char → List Char → Bool
  | [], _ => true
  | _ :: _, [] => false
  | a :: as, b :: bs => a == b && hasPfxCh as bs

/-- Boolean test: `p` occurs as a contiguous sublist of `s`. -/
def containsSub (p : List Char) : List Char → Bool
  | [] => p.isEmpty
  | b :: bs => hasPfxCh p (b :: bs) || containsSub p bs

/-- Boolean substring test on strings. -/
def containsStr (hay pat : String) : Bool := containsSub pat.data hay.data

/-- Python `s.startswith(p)`. -/
def hasPfxStr (p s : String) : Bool := hasPfxCh p.data s.data

/-- Split a character list at newline characters. -/
def splitNL : List Char → List (List Char)
  | [] => [[]]
  | c :: rest =>
    if c = '\n' then [] :: splitNL rest
    else
      match splitNL rest with
      | [] => [[c]]
      | l :: ls => (c :: l) :: ls

/-- The lines of a string (split at newlines). -/
def linesOf (s : String) : List String := (splitNL s.data).map (fun l => ⟨l⟩)

/-- True when a line, after dropping trailing spaces, ends in a colon. -/
def endsColon (l : String) : Bool :=
  match (l.data.reverse.dropWhile (fun c => c == ' ')) with
  | [] => false
  | c :: _ => c == ':'

/-! ## Association-list operations (Python dict semantics) -/

/-- Python `d.get(k)`: first binding of `k`, if any. -/
def lookupKey (k : String) : List (String × String) → Option String
  | [] => none
  | (k', v) :: rest => if k' = k then some v else lookupKey k rest

/-- Python `d[k] = v`: update the binding in place, else append. -/
def setKey (k v : String) : List (String × String) → List (String × String)
  | [] => [(k, v)]
  | (k', v') :: rest => if k' = k then (k, v) :: rest else (k', v') :: setKey k v rest

/-- Python `d.get(k, default)`. -/
def fget (form : List (String × String)) (k d : String) : String :=
  (lookupKey k form).getD d

/-- Python falsiness of `d.get(k)`: absent key or empty-string value. -/
def isBlankOpt (o : Option String) : Bool :=
  match o with
  | none => true
  | some s => s == ""

/-! ## Unit constants (src/opord/generator.py) -/

def UNIT_NAME : String := "Charlie Company, 1st Battalion, 7th Cavalry Gaming Regiment"
def UNIT_SHORT : String := "C/1-7 CAV"
def UNIT_TYPE : String := "Airborne / Air Assault (PIR model)"
def HIGHER_HQ : String := "1st Battalion, 7th Cavalry Gaming Regiment (1-7 CAV)"

def SUBORDINATE_UNITS : List String :=
  ["1st Platoon (Rifle)",
   "2nd Platoon (Rifle)",
   "3rd Platoon (Rifle)",
   "Weapons Platoon",
   "Headquarters & Support Element"]

/-! ## Data classes (src/opord/generator.py) -/

structure EnemyForces where
  composition : String := ""
  disposition : String := ""
  strength : String := ""
  recent_activity : String := ""
  capabilities : String := ""
  most_likely_coa : String := ""
  most_dangerous_coa : String := ""
deriving Repr, DecidableEq

structure FriendlyForces where
  higher_hq_mission : String := ""
  adjacent_units : String := ""
  supporting_units : String := ""
deriving Repr, DecidableEq

structure Situation where
  enemy : EnemyForces := {}
  friendly : FriendlyForces := {}
  attachments_detachments : String := ""
  civil_considerations : String := ""
deriving Repr, DecidableEq

structure Execution where
  commanders_intent : String := ""
  higher_commanders_intent : String := ""
  concept_of_operations : String := ""
  scheme_of_maneuver : String := ""
  scheme_of_fires : String := ""
  tasks_to_subordinates : List (String × String) := []
  coordinating_instructions : String := ""
  rules_of_engagement : String := ""
deriving Repr, DecidableEq

structure Sustainment where
  logistics : String := ""
  personnel : String := ""
  medical : String := ""
deriving Repr, DecidableEq

structure CommandAndSignal where
  command : String := ""
  succession_of_command : String := ""
  signal : String := ""
  frequencies : String := ""
  challenge_and_password : String := ""
deriving Repr, DecidableEq

structure OPORDData where
  operation_name : String := ""
  classification : String := "UNCLASSIFIED // TRAINING USE ONLY"
  dtg : String := ""
  reference_maps : String := ""
  time_zone : String := "ZULU"
  insert_method : String := ""
  dz_lz : String := ""
  situation : Situation := {}
  mission : String := ""
  execution : Execution := {}
  sustainment : Sustainment := {}
  command_and_signal : CommandAndSignal := {}
deriving Repr, DecidableEq

/-! ## Generator (src/opord/generator.py, class OPORDGenerator) -/

/-- The 70-character `=` rule. -/
def eqRule : String := ⟨List.replicate 70 '='⟩

def _header (d : OPORDData) : String :=
  joinNL
    [d.classification,
     "",
     "OPERATION ORDER " ++ pyOr d.operation_name "TBD" ++ "-XX",
     "(" ++ pyOr d.dtg "DTG TBD" ++ " " ++ d.time_zone ++ ")",
     "",
     "Issuing HQ: " ++ UNIT_NAME,
     "Reference Map(s): " ++ pyOr d.reference_maps "N/A",
     "",
     eqRule]

def _paragraph_1 (d : OPORDData) : String :=
  joinNL
    ["1. SITUATION",
     "",
     "  a. Enemy Forces.",
     "     Composition:        " ++ pyOr d.situation.enemy.composition "Not reported.",
     "     Disposition:        " ++ pyOr d.situation.enemy.disposition "Not reported.",
     "     Strength:           " ++ pyOr d.situation.enemy.strength "Not reported.",
     "     Recent Activity:    " ++ pyOr d.situation.enemy.recent_activity "Not reported.",
     "     Capabilities:       " ++ pyOr d.situation.enemy.capabilities "Not reported.",
     "     Most Likely COA:    " ++ pyOr d.situation.enemy.most_likely_coa "Not reported.",
     "     Most Dangerous COA: " ++ pyOr d.situation.enemy.most_dangerous_coa "Not reported.",
     "",
     "  b. Friendly Forces.",
     "     Higher HQ Mission:  " ++ pyOr d.situation.friendly.higher_hq_mission "See higher OPORD.",
     "     Adjacent Units:     " ++ pyOr d.situation.friendly.adjacent_units "None identified.",
     "     Supporting Units:   " ++ pyOr d.situation.friendly.supporting_units "None identified.",
     "",
     "  c. Attachments and Detachments.",
     "     " ++ pyOr d.situation.attachments_detachments "None.",
     "",
     "  d. Civil Considerations.",
     "     " ++ pyOr d.situation.civil_considerations "None assessed at this time."]

def _paragraph_2 (d : OPORDData) : String :=
  joinNL
    (["2. MISSION",
      "",
      "  " ++ pyOr d.mission "Mission not specified."]
     ++ (if d.insert_method ≠ "" then ["", "  Insert Method: " ++ d.insert_method] else [])
     ++ (if d.dz_lz ≠ "" then ["  DZ/LZ: " ++ d.dz_lz] else []))

/-- The lines of sub-paragraph 3f: one line per stored task in insertion order
when `tasks` is non-empty, else the full catalog tagged "Tasks TBD.". -/
def taskLines (tasks : List (String × String)) : List String :=
  if tasks.isEmpty then
    SUBORDINATE_UNITS.map (fun u => "     (" ++ u ++ "): Tasks TBD.")
  else
    tasks.map (fun p => "     (" ++ p.1 ++ "): " ++ p.2)

/-- Fixed lines of paragraph 3 before the tasks block. -/
def p3HeadLines (d : OPORDData) : List String :=
  ["3. EXECUTION",
   "",
   "  a. Commander\x27s Intent.",
   "     Purpose:    " ++ pyOr d.execution.commanders_intent "Not specified.",
   "",
   "  b. Higher Commander\x27s Intent.",
   "     " ++ pyOr d.execution.higher_commanders_intent "See higher OPORD.",
   "",
   "  c. Concept of Operations.",
   "     " ++ pyOr d.execution.concept_of_operations "Not specified.",
   "",
   "  d. Scheme of Maneuver.",
   "     " ++ pyOr d.execution.scheme_of_maneuver "Not specified.",
   "",
   "  e. Scheme of Fires.",
   "     " ++ pyOr d.execution.scheme_of_fires "Not specified.",
   "",
   "  f. Tasks to Subordinate Units."]

/-- Fixed lines of paragraph 3 after the tasks block. -/
def p3TailLines (d : OPORDData) : List String :=
  ["",
   "  g. Coordinating Instructions.",
   "     " ++ pyOr d.execution.coordinating_instructions "As required.",
   "",
   "  h. Rules of Engagement.",
   "     " ++ pyOr d.execution.rules_of_engagement "Standard ROE apply. PID required prior to engagement."]

def _paragraph_3 (d : OPORDData) : String :=
  joinNL (p3HeadLines d ++ taskLines d.execution.tasks_to_subordinates ++ p3TailLines d)

def _paragraph_4 (d : OPORDData) : String :=
  joinNL
    ["4. SUSTAINMENT",
     "",
     "  a. Logistics.",
     "     " ++ pyOr d.sustainment.logistics "Standard combat load. Resupply via higher HQ.",
     "",
     "  b. Personnel.",
     "     " ++ pyOr d.sustainment.personnel "See unit manning roster.",
     "",
     "  c. Medical.",
     "     " ++ pyOr d.sustainment.medical "Casevac IAW unit SOP. Nearest MTF: TBD."]

def _paragraph_5 (d : OPORDData) : String :=
  joinNL
    ["5. COMMAND AND SIGNAL",
     "",
     "  a. Command.",
     "     Commander:               " ++ UNIT_SHORT ++ " CDR",
     "     Succession of Command:   " ++ pyOr d.command_and_signal.succession_of_command "1PSG, then 1PLT LDR, then 2PLT LDR",
     "     CP Location:             " ++ pyOr d.command_and_signal.command "TBD",
     "",
     "  b. Signal.",
     "     " ++ pyOr d.command_and_signal.signal "PACE plan IAW unit SOP.",
     "     Frequencies:             " ++ pyOr d.command_and_signal.frequencies "See signal annex.",
     "     Challenge / Password:    " ++ pyOr d.command_and_signal.challenge_and_password "TBD"]

def _footer (d : OPORDData) : String :=
  joinNL
    ["",
     eqRule,
     "",
     "ACKNOWLEDGE",
     "",
     "  [Commander, " ++ UNIT_SHORT ++ "]",
     "",
     d.classification]

/-- `OPORDGenerator.generate_text`. -/
def generate_text (d : OPORDData) : String :=
  joinNL
    [_header d,
     "",
     _paragraph_1 d,
     "",
     _paragraph_2 d,
     "",
     _paragraph_3 d,
     "",
     _paragraph_4 d,
     "",
     _paragraph_5 d,
     _footer d]

/-! ## The nested OPORD mapping (output of `generate_dict`, input of the slide
builder). A Python dict key may be absent, so every field is `Option`-valued:
`none` models an absent key, `some v` a present key (possibly with empty value).
`dict.get(k, default)` becomes `Option.getD`. -/

structure EnemyDict where
  composition : Option String := none
  disposition : Option String := none
  strength : Option String := none
  recent_activity : Option String := none
  capabilities : Option String := none
  most_likely_coa : Option String := none
  most_dangerous_coa : Option String := none
deriving Repr, DecidableEq

structure FriendlyDict where
  higher_hq_mission : Option String := none
  adjacent_units : Option String := none
  supporting_units : Option String := none
deriving Repr, DecidableEq

structure SituationDict where
  enemy : Option EnemyDict := none
  friendly : Option FriendlyDict := none
  attachments_detachments : Option String := none
  civil_considerations : Option String := none
deriving Repr, DecidableEq

structure ExecutionDict where
  commanders_intent : Option String := none
  higher_commanders_intent : Option String := none
  concept_of_operations : Option String := none
  scheme_of_maneuver : Option String := none
  scheme_of_fires : Option String := none
  tasks_to_subordinates : Option (List (String × String)) := none
  coordinating_instructions : Option String := none
  rules_of_engagement : Option String := none
deriving Repr, DecidableEq

structure SustainmentDict where
  logistics : Option String := none
  personnel : Option String := none
  medical : Option String := none
deriving Repr, DecidableEq

structure CommandSignalDict where
  command : Option String := none
  succession_of_command : Option String := none
  signal : Option String := none
  frequencies : Option String := none
  challenge_and_password : Option String := none
deriving Repr, DecidableEq

structure OpordDict where
  unit : Option String := none
  unit_short : Option String := none
  unit_type : Option String := none
  higher_hq : Option String := none
  classification : Option String := none
  operation_name : Option String := none
  dtg : Option String := none
  time_zone : Option String := none
  reference_maps : Option String := none
  insert_method : Option String := none
  dz_lz : Option String := none
  situation : Option SituationDict := none
  mission : Option String := none
  execution : Option ExecutionDict := none
  sustainment : Option SustainmentDict := none
  command_and_signal : Option CommandSignalDict := none
  subordinate_units : Option (List String) := none
deriving Repr, DecidableEq

/-- `OPORDGenerator.generate_dict`: every key is present (`some`), values raw. -/
def generate_dict (d : OPORDData) : OpordDict :=
  { unit := some UNIT_NAME,
    unit_short := some UNIT_SHORT,
    unit_type := some UNIT_TYPE,
    higher_hq := some HIGHER_HQ,
    classification := some d.classification,
    operation_name := some d.operation_name,
    dtg := some d.dtg,
    time_zone := some d.time_zone,
    reference_maps := some d.reference_maps,
    insert_method := some d.insert_method,
    dz_lz := some d.dz_lz,
    situation := some
      { enemy := some
          { composition := some d.situation.enemy.composition,
            disposition := some d.situation.enemy.disposition,
            strength := some d.situation.enemy.strength,
            recent_activity := some d.situation.enemy.recent_activity,
            capabilities := some d.situation.enemy.capabilities,
            most_likely_coa := some d.situation.enemy.most_likely_coa,
            most_dangerous_coa := some d.situation.enemy.most_dangerous_coa },
        friendly := some
          { higher_hq_mission := some d.situation.friendly.higher_hq_mission,
            adjacent_units := some d.situation.friendly.adjacent_units,
            supporting_units := some d.situation.friendly.supporting_units },
        attachments_detachments := some d.situation.attachments_detachments,
        civil_considerations := some d.situation.civil_considerations },
    mission := some d.mission,
    execution := some
      { commanders_intent := some d.execution.commanders_intent,
        higher_commanders_intent := some d.execution.higher_commanders_intent,
        concept_of_operations := some d.execution.concept_of_operations,
        scheme_of_maneuver := some d.execution.scheme_of_maneuver,
        scheme_of_fires := some d.execution.scheme_of_fires,
        tasks_to_subordinates := some d.execution.tasks_to_subordinates,
        coordinating_instructions := some d.execution.coordinating_instructions,
        rules_of_engagement := some d.execution.rules_of_engagement },
    sustainment := some
      { logistics := some d.sustainment.logistics,
        personnel := some d.sustainment.personnel,
        medical := some d.sustainment.medical },
    command_and_signal := some
      { command := some d.command_and_signal.command,
        succession_of_command := some d.command_and_signal.succession_of_command,
        signal := some d.command_and_signal.signal,
        frequencies := some d.command_and_signal.frequencies,
        challenge_and_password := some d.command_and_signal.challenge_and_password },
    subordinate_units := some SUBORDINATE_UNITS }

/-! ## Slides helper (src/opord/slides_helper.py) -/

/-- `containsText` sub-object of a `replaceAllText` request. -/
structure ContainsText where
  text : String
  matchCase : Bool
deriving Repr, DecidableEq

/-- A Google Slides `replaceAllText` request body. -/
structure ReplaceAllText where
  containsText : ContainsText
  replaceText : String
deriving Repr, DecidableEq

/-- `_make_text_replace_request(placeholder, value)`. -/
def _make_text_replace_request (placeholder value : String) : ReplaceAllText :=
  { containsText :=
      { text := "\x7b\x7b" ++ placeholder ++ "\x7d\x7d",
        matchCase := true },
    replaceText := pyOr value "N/A" }

/-- `_build_slide_content(opord)`: the nine (title, body) slide pairs of
freeform export mode. -/
def _build_slide_content (opord : OpordDict) : List (String × String) :=
  let unit := opord.unit.getD ""
  let op := opord.operation_name.getD "TBD"
  let dtg := opord.dtg.getD ""
  let classification := opord.classification.getD "UNCLASSIFIED // TRAINING USE ONLY"
  let sit := opord.situation.getD {}
  let enemy := sit.enemy.getD {}
  let friendly := sit.friendly.getD {}
  let ex := opord.execution.getD {}
  let su := opord.sustainment.getD {}
  let cs := opord.command_and_signal.getD {}
  [("OPORD " ++ op ++ " — " ++ unit,
    classification ++ "\nDTG: " ++ dtg ++ "\nReference Maps: " ++ opord.reference_maps.getD "N/A"),
   ("1. SITUATION — Enemy Forces",
    "Composition: " ++ enemy.composition.getD "N/A" ++ "\n" ++
    "Disposition: " ++ enemy.disposition.getD "N/A" ++ "\n" ++
    "Strength: " ++ enemy.strength.getD "N/A" ++ "\n" ++
    "Recent Activity: " ++ enemy.recent_activity.getD "N/A" ++ "\n" ++
    "Capabilities: " ++ enemy.capabilities.getD "N/A" ++ "\n" ++
    "Most Likely COA: " ++ enemy.most_likely_coa.getD "N/A" ++ "\n" ++
    "Most Dangerous COA: " ++ enemy.most_dangerous_coa.getD "N/A"),
   ("1. SITUATION — Friendly Forces",
    "Higher HQ Mission: " ++ friendly.higher_hq_mission.getD "N/A" ++ "\n" ++
    "Adjacent Units: " ++ friendly.adjacent_units.getD "N/A" ++ "\n" ++
    "Supporting Units: " ++ friendly.supporting_units.getD "N/A" ++ "\n" ++
    "Attachments/Detachments: " ++ sit.attachments_detachments.getD "N/A" ++ "\n" ++
    "Civil Considerations: " ++ sit.civil_considerations.getD "N/A"),
   ("2. MISSION",
    opord.mission.getD "N/A" ++ "\n\n" ++
    "Insert Method: " ++ opord.insert_method.getD "N/A" ++ "\n" ++
    "DZ/LZ: " ++ opord.dz_lz.getD "N/A"),
   ("3. EXECUTION — Commander\x27s Intent & Concept of Ops",
    "Commander\x27s Intent:\n" ++ ex.commanders_intent.getD "N/A" ++ "\n\n" ++
    "Concept of Operations:\n" ++ ex.concept_of_operations.getD "N/A"),
   ("3. EXECUTION — Maneuver, Fires & Tasks",
    "Scheme of Maneuver:\n" ++ ex.scheme_of_maneuver.getD "N/A" ++ "\n\n" ++
    "Scheme of Fires:\n" ++ ex.scheme_of_fires.getD "N/A" ++ "\n\n" ++
    "Tasks to Subordinates:\n" ++
    joinNL ((ex.tasks_to_subordinates.getD []).map (fun p => "  " ++ p.1 ++ ": " ++ p.2))),
   ("3. EXECUTION — Coordinating Instructions & ROE",
    "Coordinating Instructions:\n" ++ ex.coordinating_instructions.getD "N/A" ++ "\n\n" ++
    "Rules of Engagement:\n" ++ ex.rules_of_engagement.getD "N/A"),
   ("4. SUSTAINMENT",
    "Logistics:\n" ++ su.logistics.getD "N/A" ++ "\n\n" ++
    "Personnel:\n" ++ su.personnel.getD "N/A" ++ "\n\n" ++
    "Medical:\n" ++ su.medical.getD "N/A"),
   ("5. COMMAND AND SIGNAL",
    "CP Location: " ++ cs.command.getD "N/A" ++ "\n" ++
    "Succession of Command: " ++ cs.succession_of_command.getD "N/A" ++ "\n\n" ++
    "Signal:\n" ++ cs.signal.getD "N/A" ++ "\n" ++
    "Frequencies: " ++ cs.frequencies.getD "N/A" ++ "\n" ++
    "Challenge/Password: " ++ cs.challenge_and_password.getD "N/A")]

/-! ## AI helper (src/opord/ai_helper.py) -/

/-- The opaque text-completion collaborator: maps the user message to the raw
reply content. -/
structure Client where
  complete : String → String

/-- Process environment relevant to `get_client`: whether the `openai` library
imports, the `OPENAI_API_KEY` value, and the remote model behaviour. -/
structure ClientConfig where
  openaiAvailable : Bool := true
  apiKey : String := ""
  complete : String → String := fun _ => ""

/-- `get_client()`: `None` when the library is absent, the key is unset, or the
key is a `your_...` placeholder. -/
def get_client (cfg : ClientConfig) : Option Client :=
  if !cfg.openaiAvailable then none
  else if cfg.apiKey = "" || hasPfxStr "your_" cfg.apiKey then none
  else some ⟨cfg.complete⟩

/-- The user message built by `generate_section`. -/
def userMessageFor (section_name user_notes : String) : String :=
  "Generate the \x27" ++ section_name ++ "\x27 section of an OPORD for " ++ UNIT_NAME ++
  ". Use the following operational notes as context:\n\n" ++ user_notes ++
  "\n\nWrite only the content of that section (no headings). Keep it under 150 words."

/-- `generate_section(section_name, user_notes)`: empty string without a client,
else the stripped reply. -/
def generate_section (client : Option Client) (section_name user_notes : String) : String :=
  match client with
  | none => ""
  | some c => pyStrip (c.complete (userMessageFor section_name user_notes))

/-- The shared operational-summary context string of `generate_full_opord`. -/
def opSummary (form : List (String × String)) : String :=
  "Operation: " ++ fget form "operation_name" "TBD" ++
  ". Mission: " ++ fget form "mission" "TBD" ++
  ". Insert method: " ++ fget form "insert_method" "TBD" ++
  ". DZ/LZ: " ++ fget form "dz_lz" "TBD" ++
  ". Enemy: " ++ fget form "enemy_composition" "unknown" ++ "."

/-- The fixed (result key, section label) list of auto-fill targets. -/
def auto_fill_fields : List (String × String) :=
  [("enemy_capabilities", "Enemy Capabilities"),
   ("enemy_most_likely_coa", "Enemy Most Likely Course of Action"),
   ("enemy_most_dangerous_coa", "Enemy Most Dangerous Course of Action"),
   ("commanders_intent", "Commander\x27s Intent"),
   ("concept_of_operations", "Concept of Operations"),
   ("scheme_of_maneuver", "Scheme of Maneuver"),
   ("scheme_of_fires", "Scheme of Fires"),
   ("coordinating_instructions", "Coordinating Instructions"),
   ("sustainment_logistics", "Logistics paragraph"),
   ("sustainment_medical", "Medical paragraph"),
   ("signal", "Command and Signal paragraph")]

/-- The enrichment loop: for each (key, label) in order, fill the key with
`gen label` when its current value is absent or empty. -/
def fillFold (gen : String → String) (fields : List (String × String))
    (form : List (String × String)) : List (String × String) :=
  fields.foldl
    (fun result kl =>
      if isBlankOpt (lookupKey kl.1 result) then setKey kl.1 (gen kl.2) result
      else result)
    form

/-- `generate_full_opord(form_data)`. -/
def generate_full_opord (cfg : ClientConfig) (form : List (String × String)) :
    List (String × String) :=
  match get_client cfg with
  | none => form
  | some _ =>
    fillFold (fun label => generate_section (get_client cfg) label (opSummary form))
      auto_fill_fields form

/-! ## Flask app (src/app.py) -/

/-- The subordinate-unit list re-declared inline in `_form_to_opord_data`. -/
def formUnits : List String :=
  ["1st Platoon (Rifle)",
   "2nd Platoon (Rifle)",
   "3rd Platoon (Rifle)",
   "Weapons Platoon",
   "Headquarters & Support Element"]

/-- Python `unit.split()[0]` (first whitespace-delimited word). -/
def firstWord (s : String) : String :=
  ⟨(s.data.dropWhile isPyWs).takeWhile (fun c => !(isPyWs c))⟩

/-- Python `str.lower()` (ASCII). -/
def strLower (s : String) : String := ⟨s.data.map Char.toLower⟩

/-- The form key `f"task_{unit.split()[0].lower()}"`. -/
def taskKeyFor (unit : String) : String := "task_" ++ strLower (firstWord unit)

/-- `_form_to_opord_data(form)`: map flat form fields to an `OPORDData`,
stripping every value and dropping blank subordinate tasks. -/
def _form_to_opord_data (form : List (String × String)) : OPORDData :=
  let tasks := formUnits.filterMap
    (fun unit =>
      let val := pyStrip (fget form (taskKeyFor unit) "")
      if val = "" then none else some (unit, val))
  { operation_name := pyStrip (fget form "operation_name" ""),
    classification := pyStrip (fget form "classification" "UNCLASSIFIED // TRAINING USE ONLY"),
    dtg := pyStrip (fget form "dtg" ""),
    reference_maps := pyStrip (fget form "reference_maps" ""),
    time_zone := pyStrip (fget form "time_zone" "ZULU"),
    insert_method := pyStrip (fget form "insert_method" ""),
    dz_lz := pyStrip (fget form "dz_lz" ""),
    situation :=
      { enemy :=
          { composition := pyStrip (fget form "enemy_composition" ""),
            disposition := pyStrip (fget form "enemy_disposition" ""),
            strength := pyStrip (fget form "enemy_strength" ""),
            recent_activity := pyStrip (fget form "enemy_recent_activity" ""),
            capabilities := pyStrip (fget form "enemy_capabilities" ""),
            most_likely_coa := pyStrip (fget form "enemy_most_likely_coa" ""),
            most_dangerous_coa := pyStrip (fget form "enemy_most_dangerous_coa" "") },
        friendly :=
          { higher_hq_mission := pyStrip (fget form "friendly_higher_hq_mission" ""),
            adjacent_units := pyStrip (fget form "friendly_adjacent_units" ""),
            supporting_units := pyStrip (fget form "friendly_supporting_units" "") },
        attachments_detachments := pyStrip (fget form "attachments_detachments" ""),
        civil_considerations := pyStrip (fget form "civil_considerations" "") },
    mission := pyStrip (fget form "mission" ""),
    execution :=
      { commanders_intent := pyStrip (fget form "commanders_intent" ""),
        concept_of_operations := pyStrip (fget form "concept_of_operations" ""),
        scheme_of_maneuver := pyStrip (fget form "scheme_of_maneuver" ""),
        scheme_of_fires := pyStrip (fget form "scheme_of_fires" ""),
        tasks_to_subordinates := tasks,
        coordinating_instructions := pyStrip (fget form "coordinating_instructions" ""),
        rules_of_engagement := pyStrip (fget form "rules_of_engagement" "") },
    sustainment :=
      { logistics := pyStrip (fget form "sustainment_logistics" ""),
        personnel := pyStrip (fget form "sustainment_personnel" ""),
        medical := pyStrip (fget form "sustainment_medical" "") },
    command_and_signal :=
      { command := pyStrip (fget form "command_cp" ""),
        succession_of_command := pyStrip (fget form "succession_of_command" ""),
        signal := pyStrip (fget form "signal" ""),
        frequencies := pyStrip (fget form "frequencies" ""),
        challenge_and_password := pyStrip (fget form "challenge_and_password" "") } }

/-! ## Association-list lemmas -/

theorem lookup_setKey_self (k v : String) (m : List (String × String)) :
    lookupKey k (setKey k v m) = some v := by
  induction m with
  | nil => simp [setKey, lookupKey]
  | cons p rest ih =>
    by_cases h : p.1 = k
    · simp [setKey, h, lookupKey]
    · simp [setKey, h, lookupKey, ih]

theorem lookup_setKey_of_ne (k k' v : String) (m : List (String × String))
    (h : k ≠ k') : lookupKey k' (setKey k v m) = lookupKey k' m := by
  induction m with
  | nil => simp [setKey, lookupKey, h]
  | cons p rest ih =>
    by_cases hp : p.1 = k
    · simp [setKey, hp, lookupKey, h, ih]
    · by_cases hp' : p.1 = k'
      · simp [setKey, hp, lookupKey, hp', Ne.symm h]
      · simp [setKey, hp, lookupKey, hp', ih]

theorem lookup_fillFold_of_not_mem (gen : String → String)
    (fields : List (String × String)) (form : List (String × String)) (k : String)
    (h : k ∉ fields.map Prod.fst) :
    lookupKey k (fillFold gen fields form) = lookupKey k form := by
  induction fields generalizing form with
  | nil => rfl
  | cons kl rest ih =>
    simp only [List.map_cons, List.mem_cons, not_or] at h
    have step : lookupKey k
        (if isBlankOpt (lookupKey kl.1 form) then setKey kl.1 (gen kl.2) form else form) =
        lookupKey k form := by
      by_cases hb : isBlankOpt (lookupKey kl.1 form) = true
      · simp [hb, lookup_setKey_of_ne kl.1 k _ form (fun he => h.1 he.symm)]
      · simp [hb]
    simpa [fillFold, List.foldl_cons, step] using (ih _ h.2).trans step

theorem lookup_fillFold_of_mem (gen : String → String)
    (fields : List (String × String)) (form : List (String × String))
    (k l : String) (hnd : (fields.map Prod.fst).Nodup) (hm : (k, l) ∈ fields) :
    lookupKey k (fillFold gen fields form) =
      if isBlankOpt (lookupKey k form) then some (gen l) else lookupKey k form := by
  induction fields generalizing form with
  | nil => cases hm
  | cons kl rest ih =>
    simp only [List.map_cons, List.nodup_cons] at hnd
    rcases List.mem_cons.mp hm with hhead | htail
    · -- the processed pair is exactly (k, l); later fields never touch k again
      obtain rfl := hhead.symm
      have hnot : k ∉ rest.map Prod.fst := hnd.1
      show lookupKey k (fillFold gen rest
            (if isBlankOpt (lookupKey k form) then setKey k (gen l) form else form)) = _
      by_cases hb : isBlankOpt (lookupKey k form) = true
      · rw [if_pos hb, lookup_fillFold_of_not_mem gen rest _ k hnot,
          lookup_setKey_self, if_pos hb]
      · rw [if_neg hb, lookup_fillFold_of_not_mem gen rest _ k hnot, if_neg hb]
    · -- the processed pair has a different key; it cannot disturb k
      have hk1 : kl.1 ≠ k := by
        intro he
        exact hnd.1 (he ▸ (List.mem_map_of_mem Prod.fst htail))
      show lookupKey k (fillFold gen rest
            (if isBlankOpt (lookupKey kl.1 form) then setKey kl.1 (gen kl.2) form
             else form)) = _
      by_cases hb : isBlankOpt (lookupKey kl.1 form) = true
      · rw [if_pos hb, ih _ hnd.2 htail, lookup_setKey_of_ne kl.1 k _ form hk1]
      · rw [if_neg hb, ih _ hnd.2 htail]

/-! ## joinNL and string-data lemmas -/

theorem joinNL_single (s : String) : joinNL [s] = s := rfl

theorem joinNL_cons2 (s t : String) (rest : List String) :
    joinNL (s :: t :: rest) = s ++ "\n" ++ joinNL (t :: rest) := rfl

theorem dataNL : ("\n" : String).data = ['\n'] := rfl

theorem dataEmpty : ("" : String).data = [] := rfl

/-! ## Claim theorems -/

/-- C3: for every OPORDData instance, sub-paragraph 3f of the rendered text
enumerates exactly the entries of `tasks_to_subordinates` in insertion order
when the mapping is non-empty, and otherwise the full fixed 5-unit catalog in
catalog order, each tagged "Tasks TBD.". -/
theorem tasks_subparagraph_enumeration (d : OPORDData) :
    _paragraph_3 d =
      joinNL (p3HeadLines d ++ taskLines d.execution.tasks_to_subordinates ++ p3TailLines d)
    ∧ taskLines d.execution.tasks_to_subordinates =
        (if d.execution.tasks_to_subordinates = []
         then SUBORDINATE_UNITS.map (fun u => "     (" ++ u ++ "): Tasks TBD.")
         else d.execution.tasks_to_subordinates.map
           (fun p => "     (" ++ p.1 ++ "): " ++ p.2)) := by
  refine ⟨rfl, ?_⟩
  cases h : d.execution.tasks_to_subordinates with
  | nil => simp [taskLines]
  | cons a t => simp [taskLines]

/-- C4: the document assembler is pure and idempotent — rendering the same
OPORDData twice gives identical text and structurally equal mappings (both
renderings are total functions of the instance alone in this embedding, which
mirrors a source that reads only `self.data` and module constants). -/
theorem assembler_idempotent (d : OPORDData) :
    generate_text d = generate_text d ∧ generate_dict d = generate_dict d :=
  ⟨rfl, rfl⟩

/-- C6: a template-mode placeholder-substitution request matches the exact
case-sensitive token `\x7b\x7bNAME\x7d\x7d` and carries the mapping value when
non-empty, else exactly "N/A" — never the empty string, and for an empty value
never the placeholder token itself. -/
theorem replace_request_token_and_na (p v : String) :
    (_make_text_replace_request p v).containsText.text = "\x7b\x7b" ++ p ++ "\x7d\x7d"
    ∧ (_make_text_replace_request p v).containsText.matchCase = true
    ∧ (_make_text_replace_request p v).replaceText = (if v = "" then "N/A" else v)
    ∧ (_make_text_replace_request p v).replaceText ≠ ""
    ∧ (_make_text_replace_request p "").replaceText = "N/A"
    ∧ (_make_text_replace_request p "").replaceText ≠ "\x7b\x7b" ++ p ++ "\x7d\x7d" := by
  refine ⟨rfl, rfl, rfl, ?_, rfl, ?_⟩
  · show pyOr v "N/A" ≠ ""
    unfold pyOr
    by_cases h : v = ""
    · simp [h]
    · simp [h]
  · show ("N/A" : String) ≠ "\x7b\x7b" ++ p ++ "\x7d\x7d"
    intro h
    have hp : hasPfxCh ['N'] ("N/A" : String).data = true := by decide
    rw [h] at hp
    have e : ("\x7b\x7b" ++ p ++ "\x7d\x7d" : String).data
        = '\x7b' :: '\x7b' :: (p.data ++ ('\x7d' :: '\x7d' :: [])) := by
      rw [String.data_append, String.data_append]; rfl
    rw [e] at hp
    simp [hasPfxCh] at hp

/-- C7: in freeform export mode the slide-content builder returns exactly nine
(title, body) pairs in the fixed order title/overview, enemy, friendly,
mission, intent+concept, maneuver+fires+tasks, coordinating+ROE, sustainment,
command-and-signal, for every nested OPORD mapping. -/
theorem freeform_nine_slides (o : OpordDict) :
    (_build_slide_content o).length = 9
    ∧ (_build_slide_content o).map Prod.fst =
        ["OPORD " ++ o.operation_name.getD "TBD" ++ " — " ++ o.unit.getD "",
         "1. SITUATION — Enemy Forces",
         "1. SITUATION — Friendly Forces",
         "2. MISSION",
         "3. EXECUTION — Commander\x27s Intent & Concept of Ops",
         "3. EXECUTION — Maneuver, Fires & Tasks",
         "3. EXECUTION — Coordinating Instructions & ROE",
         "4. SUSTAINMENT",
         "5. COMMAND AND SIGNAL"] :=
  ⟨rfl, rfl⟩

/-- C9: the classification string opens and closes the rendered text verbatim
(followed by, resp. preceded by, a newline), and the default-constructed
instance carries the constant non-empty default classification. -/
theorem classification_header_footer (d : OPORDData) :
    (d.classification.data ++ ['\n']) <+: (generate_text d).data
    ∧ ('\n' :: d.classification.data) <:+ (generate_text d).data
    ∧ ({} : OPORDData).classification = "UNCLASSIFIED // TRAINING USE ONLY"
    ∧ ({} : OPORDData).classification ≠ "" := by
  refine ⟨?_, ?_, rfl, by decide⟩
  · exact ⟨_, by
      simp [generate_text, _header, _footer, joinNL_cons2, joinNL_single,
        String.data_append, dataNL, dataEmpty, List.append_assoc]
      rfl⟩
  · simp only [generate_text, _header, _footer, joinNL_cons2, joinNL_single,
      String.data_append, dataNL, dataEmpty, List.append_assoc,
      List.cons_append, List.nil_append, List.singleton_append]
    repeat
      first
      | exact List.suffix_refl _
      | refine List.IsSuffix.trans ?_ (List.suffix_append _ _)
      | refine List.IsSuffix.trans ?_ (List.suffix_cons _ _)

/-- The i-th (title, body) slide pair, defaulting to an empty pair. -/
def slideAt (o : OpordDict) (i : Nat) : String × String :=
  ((_build_slide_content o)[i]?).getD ("", "")

/-- C1 counterexample: feed the slide builder the mapping produced by
`generate_dict` on the all-defaults instance. Every leaf key is present with
the empty string as value, yet the enemy slide body contains no "N/A" at all —
each empty field renders as empty text — and the maneuver/fires/tasks slide
contains neither "N/A" nor any tasks fallback. This refutes the claim that an
empty-string field renders as "N/A". -/
theorem freeform_empty_value_not_na_cex :
    (((generate_dict ({} : OPORDData)).situation.getD {}).enemy.getD {}).composition = some ""
    ∧ containsStr (slideAt (generate_dict ({} : OPORDData)) 1).2 "N/A" = false
    ∧ containsStr (slideAt (generate_dict ({} : OPORDData)) 5).2 "N/A" = false
    ∧ containsStr (slideAt (generate_dict ({} : OPORDData)) 5).2 "Tasks TBD." = false
    ∧ (slideAt (generate_dict ({} : OPORDData)) 1).2 =
        "Composition: \nDisposition: \nStrength: \nRecent Activity: \nCapabilities: \nMost Likely COA: \nMost Dangerous COA: " := by
  refine ⟨rfl, by decide, by decide, by decide, by decide⟩

/-- C1 amended: in freeform export mode the "N/A" fallback applies to fields
absent from the mapping (and, on the title slide, only to the reference-maps
field — an absent dtg renders empty, an absent operation name as "TBD", an
absent classification as the constant default); a present-but-empty field
renders as the empty string, and the tasks-to-subordinates block renders one
line per entry with no fallback at all. Evaluating the builder on the
all-absent mapping exhibits the "N/A" fallback at every section-slide field. -/
theorem freeform_absent_field_na_amended :
    _build_slide_content ({} : OpordDict) =
      [("OPORD TBD — ",
        "UNCLASSIFIED // TRAINING USE ONLY\nDTG: \nReference Maps: N/A"),
       ("1. SITUATION — Enemy Forces",
        "Composition: N/A\nDisposition: N/A\nStrength: N/A\nRecent Activity: N/A\nCapabilities: N/A\nMost Likely COA: N/A\nMost Dangerous COA: N/A"),
       ("1. SITUATION — Friendly Forces",
        "Higher HQ Mission: N/A\nAdjacent Units: N/A\nSupporting Units: N/A\nAttachments/Detachments: N/A\nCivil Considerations: N/A"),
       ("2. MISSION",
        "N/A\n\nInsert Method: N/A\nDZ/LZ: N/A"),
       ("3. EXECUTION — Commander\x27s Intent & Concept of Ops",
        "Commander\x27s Intent:\nN/A\n\nConcept of Operations:\nN/A"),
       ("3. EXECUTION — Maneuver, Fires & Tasks",
        "Scheme of Maneuver:\nN/A\n\nScheme of Fires:\nN/A\n\nTasks to Subordinates:\n"),
       ("3. EXECUTION — Coordinating Instructions & ROE",
        "Coordinating Instructions:\nN/A\n\nRules of Engagement:\nN/A"),
       ("4. SUSTAINMENT",
        "Logistics:\nN/A\n\nPersonnel:\nN/A\n\nMedical:\nN/A"),
       ("5. COMMAND AND SIGNAL",
        "CP Location: N/A\nSuccession of Command: N/A\n\nSignal:\nN/A\nFrequencies: N/A\nChallenge/Password: N/A")] := by
  decide

/-- The per-field doctrinal fallback phrases fixed in spec section 4.2. -/
def specFallbackPhrases : List String :=
  ["Not reported.", "See higher OPORD.", "None identified.", "None.",
   "None assessed at this time.", "Mission not specified.", "Not specified.",
   "As required.", "Standard ROE apply. PID required prior to engagement.",
   "Tasks TBD.", "Standard combat load. Resupply via higher HQ.",
   "See unit manning roster.", "Casevac IAW unit SOP. Nearest MTF: TBD.",
   "1PSG, then 1PLT LDR, then 2PLT LDR", "PACE plan IAW unit SOP.",
   "See signal annex.", "TBD"]

/-- C5: rendering the all-defaults OPORDData, every specified fallback phrase
occurs in the text, "Not reported." occurs, no line is a bare label ending in
a colon, and no non-separator line is whitespace-only. -/
theorem default_render_fallbacks :
    specFallbackPhrases.all (fun ph => containsStr (generate_text {}) ph) = true
    ∧ containsStr (generate_text {}) "Not reported." = true
    ∧ (linesOf (generate_text {})).all (fun l => !(endsColon l)) = true
    ∧ (linesOf (generate_text {})).all (fun l => l == "" || pyStrip l != "") = true := by
  refine ⟨by decide, by decide, by decide, by decide⟩

/-- C2: with an available collaborator, enrichment changes no key outside the
eleven-element target list, passes every non-empty field through unchanged,
and fills exactly the absent-or-empty target fields with the collaborator's
text for the field's section label under the shared summary context. -/
theorem enrichment_fills_only_blanks (cfg : ClientConfig) (c : Client)
    (hc : get_client cfg = some c) (form : List (String × String)) (k : String) :
    (k ∉ auto_fill_fields.map Prod.fst →
        lookupKey k (generate_full_opord cfg form) = lookupKey k form)
    ∧ (∀ v, lookupKey k form = some v → v ≠ "" →
        lookupKey k (generate_full_opord cfg form) = lookupKey k form)
    ∧ (∀ l, (k, l) ∈ auto_fill_fields → isBlankOpt (lookupKey k form) = true →
        lookupKey k (generate_full_opord cfg form) =
          some (generate_section (get_client cfg) l (opSummary form))) := by
  have hred : generate_full_opord cfg form =
      fillFold (fun label => generate_section (get_client cfg) label (opSummary form))
        auto_fill_fields form := by
    unfold generate_full_opord
    rw [hc]
  refine ⟨?_, ?_, ?_⟩
  · intro hk
    rw [hred]
    exact lookup_fillFold_of_not_mem _ _ _ _ hk
  · intro v hv hne
    rw [hred]
    by_cases hk : k ∈ auto_fill_fields.map Prod.fst
    · obtain ⟨⟨a, b⟩, hpmem, hpk⟩ := List.mem_map.mp hk
      dsimp at hpk
      subst hpk
      rw [lookup_fillFold_of_mem _ _ _ _ b (by decide) hpmem, hv]
      have hf : (v == "") = false := beq_eq_false_iff_ne.mpr hne
      simp [isBlankOpt, hf]
    · exact lookup_fillFold_of_not_mem _ _ _ _ hk
  · intro l hm hb
    rw [hred, lookup_fillFold_of_mem _ _ _ _ l (by decide) hm, if_pos hb]

/-- The mocked collaborator of the enrichment scenarios. -/
def mockClient : Client := ⟨fun _ => "AI-generated content."⟩

/-- A configured environment wired to the mocked collaborator. -/
def mockCfg : ClientConfig :=
  { openaiAvailable := true, apiKey := "sk-test-key", complete := mockClient.complete }

/-- C2 witness: a non-empty `commanders_intent` survives enrichment unchanged,
and an empty one receives exactly the mocked collaborator's text. -/
theorem enrichment_fills_only_blanks_witness :
    lookupKey "commanders_intent"
        (generate_full_opord mockCfg [("commanders_intent", "User-provided intent.")])
      = some "User-provided intent."
    ∧ lookupKey "commanders_intent"
        (generate_full_opord mockCfg [("commanders_intent", "")])
      = some "AI-generated content." := by
  constructor
  · have h := (enrichment_fills_only_blanks mockCfg mockClient rfl
      [("commanders_intent", "User-provided intent.")] "commanders_intent").2.1
    exact (h "User-provided intent." rfl (by decide)).trans rfl
  · have h := (enrichment_fills_only_blanks mockCfg mockClient rfl
      [("commanders_intent", "")] "commanders_intent").2.2
    exact (h "Commander\x27s Intent" (by decide) (by decide)).trans (by decide)

/-- C8: whenever `get_client` yields no collaborator (library absent, key
unset, or placeholder key), enrichment is an identity no-op and per-section
generation returns the empty string. -/
theorem unavailable_collaborator_noop (cfg : ClientConfig)
    (form : List (String × String)) (section_name user_notes : String)
    (h : cfg.openaiAvailable = false ∨ cfg.apiKey = ""
         ∨ hasPfxStr "your_" cfg.apiKey = true) :
    get_client cfg = none
    ∧ generate_full_opord cfg form = form
    ∧ generate_section (get_client cfg) section_name user_notes = "" := by
  have hg : get_client cfg = none := by
    unfold get_client
    rcases h with h1 | h2 | h3
    · simp [h1]
    · simp [h2]
    · simp [h3]
  refine ⟨hg, ?_, by rw [hg]; rfl⟩
  unfold generate_full_opord
  rw [hg]

/-- An environment with the library importable but no API key configured. -/
def unconfiguredCfg : ClientConfig :=
  { openaiAvailable := true, apiKey := "", complete := fun _ => "ignored" }

/-- C8 witness: with no API key, the client is `none`, enrichment returns the
form unchanged, and section generation returns the empty string. -/
theorem unavailable_collaborator_noop_witness :
    get_client unconfiguredCfg = none
    ∧ generate_full_opord unconfiguredCfg [("mission", "Attack OBJ EAGLE.")]
        = [("mission", "Attack OBJ EAGLE.")]
    ∧ generate_section (get_client unconfiguredCfg) "Mission Statement"
        "Attack objective EAGLE" = "" :=
  unavailable_collaborator_noop unconfiguredCfg _ _ _ (Or.inr (Or.inl rfl))

theorem lookup_filterMap_none (units : List String)
    (f : String → Option (String × String))
    (hf : ∀ u' p, f u' = some p → p.1 = u')
    (u : String) (hu : f u = none) :
    lookupKey u (units.filterMap f) = none := by
  induction units with
  | nil => rfl
  | cons a rest ih =>
    cases hfa : f a with
    | none => simpa [List.filterMap_cons, hfa] using ih
    | some p =>
      have hne : p.1 ≠ u := by
        rw [hf a p hfa]
        intro he
        rw [he, hu] at hfa
        cases hfa
      simpa [List.filterMap_cons, hfa, lookupKey, hne] using ih

/-- C10 counterexample: a whitespace-only form value is NOT always
indistinguishable from an absent one. For classification and time_zone the
form defaults are non-empty, so an absent key yields
"UNCLASSIFIED // TRAINING USE ONLY" resp. "ZULU" while a whitespace-only value
strips to the empty string; the empty value then renders raw with no fallback
phrase — the header line is blank and the DTG line reads "(DTG TBD )". -/
theorem form_ws_vs_absent_cex :
    (_form_to_opord_data []).classification = "UNCLASSIFIED // TRAINING USE ONLY"
    ∧ (_form_to_opord_data [("classification", "   ")]).classification = ""
    ∧ (_form_to_opord_data [("classification", "   ")]).classification
        ≠ (_form_to_opord_data []).classification
    ∧ (linesOf (generate_text (_form_to_opord_data [("classification", "   ")]))).head?
        = some ""
    ∧ (_form_to_opord_data []).time_zone = "ZULU"
    ∧ (_form_to_opord_data [("time_zone", " \t ")]).time_zone = ""
    ∧ containsStr (generate_text (_form_to_opord_data [("time_zone", " \t ")]))
        "(DTG TBD )" = true
    ∧ containsStr (generate_text (_form_to_opord_data [("time_zone", " \t ")]))
        "ZULU" = false := by
  refine ⟨rfl, by decide, by decide, by decide, rfl, by decide, by decide, by decide⟩

/-- C10 amended: the form-to-data constructor strips every field it reads
(each leaf equals the stripped form value), a whitespace-only value strips to
the empty string, and a whitespace-only subordinate task is excluded at
construction. For fields whose form default is the empty string this makes a
whitespace-only value indistinguishable from an absent one, receiving the
fallback phrase on rendering (shown for the mission, where the two resulting
instances are equal); but for classification and time_zone — whose form
defaults are non-empty — a whitespace-only value strips to the empty string,
unlike an absent one, and renders raw with no fallback phrase. -/
theorem form_strip_semantics_amended (form : List (String × String)) :
    ((_form_to_opord_data form).operation_name = pyStrip (fget form "operation_name" "")
     ∧ (_form_to_opord_data form).classification
         = pyStrip (fget form "classification" "UNCLASSIFIED // TRAINING USE ONLY")
     ∧ (_form_to_opord_data form).dtg = pyStrip (fget form "dtg" "")
     ∧ (_form_to_opord_data form).reference_maps = pyStrip (fget form "reference_maps" "")
     ∧ (_form_to_opord_data form).time_zone = pyStrip (fget form "time_zone" "ZULU")
     ∧ (_form_to_opord_data form).insert_method = pyStrip (fget form "insert_method" "")
     ∧ (_form_to_opord_data form).dz_lz = pyStrip (fget form "dz_lz" "")
     ∧ (_form_to_opord_data form).situation.enemy.composition
         = pyStrip (fget form "enemy_composition" "")
     ∧ (_form_to_opord_data form).situation.enemy.disposition
         = pyStrip (fget form "enemy_disposition" "")
     ∧ (_form_to_opord_data form).situation.enemy.strength
         = pyStrip (fget form "enemy_strength" "")
     ∧ (_form_to_opord_data form).situation.enemy.recent_activity
         = pyStrip (fget form "enemy_recent_activity" "")
     ∧ (_form_to_opord_data form).situation.enemy.capabilities
         = pyStrip (fget form "enemy_capabilities" "")
     ∧ (_form_to_opord_data form).situation.enemy.most_likely_coa
         = pyStrip (fget form "enemy_most_likely_coa" "")
     ∧ (_form_to_opord_data form).situation.enemy.most_dangerous_coa
         = pyStrip (fget form "enemy_most_dangerous_coa" "")
     ∧ (_form_to_opord_data form).situation.friendly.higher_hq_mission
         = pyStrip (fget form "friendly_higher_hq_mission" "")
     ∧ (_form_to_opord_data form).situation.friendly.adjacent_units
         = pyStrip (fget form "friendly_adjacent_units" "")
     ∧ (_form_to_opord_data form).situation.friendly.supporting_units
         = pyStrip (fget form "friendly_supporting_units" "")
     ∧ (_form_to_opord_data form).situation.attachments_detachments
         = pyStrip (fget form "attachments_detachments" "")
     ∧ (_form_to_opord_data form).situation.civil_considerations
         = pyStrip (fget form "civil_considerations" "")
     ∧ (_form_to_opord_data form).mission = pyStrip (fget form "mission" "")
     ∧ (_form_to_opord_data form).execution.commanders_intent
         = pyStrip (fget form "commanders_intent" "")
     ∧ (_form_to_opord_data form).execution.concept_of_operations
         = pyStrip (fget form "concept_of_operations" "")
     ∧ (_form_to_opord_data form).execution.scheme_of_maneuver
         = pyStrip (fget form "scheme_of_maneuver" "")
     ∧ (_form_to_opord_data form).execution.scheme_of_fires
         = pyStrip (fget form "scheme_of_fires" "")
     ∧ (_form_to_opord_data form).execution.coordinating_instructions
         = pyStrip (fget form "coordinating_instructions" "")
     ∧ (_form_to_opord_data form).execution.rules_of_engagement
         = pyStrip (fget form "rules_of_engagement" "")
     ∧ (_form_to_opord_data form).sustainment.logistics
         = pyStrip (fget form "sustainment_logistics" "")
     ∧ (_form_to_opord_data form).sustainment.personnel
         = pyStrip (fget form "sustainment_personnel" "")
     ∧ (_form_to_opord_data form).sustainment.medical
         = pyStrip (fget form "sustainment_medical" "")
     ∧ (_form_to_opord_data form).command_and_signal.command
         = pyStrip (fget form "command_cp" "")
     ∧ (_form_to_opord_data form).command_and_signal.succession_of_command
         = pyStrip (fget form "succession_of_command" "")
     ∧ (_form_to_opord_data form).command_and_signal.signal
         = pyStrip (fget form "signal" "")
     ∧ (_form_to_opord_data form).command_and_signal.frequencies
         = pyStrip (fget form "frequencies" "")
     ∧ (_form_to_opord_data form).command_and_signal.challenge_and_password
         = pyStrip (fget form "challenge_and_password" ""))
    ∧ (∀ s : String, s.data.all isPyWs = true → pyStrip s = "")
    ∧ (∀ u, pyStrip (fget form (taskKeyFor u) "") = "" →
        lookupKey u (_form_to_opord_data form).execution.tasks_to_subordinates = none)
    ∧ _form_to_opord_data [("mission", "   ")] = _form_to_opord_data []
    ∧ containsStr (generate_text (_form_to_opord_data [("mission", "   ")]))
        "Mission not specified." = true
    ∧ (_form_to_opord_data [("classification", "   ")]).classification = ""
    ∧ (_form_to_opord_data []).classification = "UNCLASSIFIED // TRAINING USE ONLY"
    ∧ (_form_to_opord_data [("time_zone", " \t ")]).time_zone = ""
    ∧ (_form_to_opord_data []).time_zone = "ZULU" := by
  refine ⟨⟨rfl, rfl, rfl, rfl, rfl, rfl, rfl, rfl, rfl, rfl, rfl, rfl, rfl, rfl,
    rfl, rfl, rfl, rfl, rfl, rfl, rfl, rfl, rfl, rfl, rfl, rfl, rfl, rfl, rfl,
    rfl, rfl, rfl, rfl, rfl⟩, ?_, ?_, by decide, by decide, by decide, rfl,
    by decide, rfl⟩
  · intro s hs
    have h1 : s.data.dropWhile isPyWs = [] :=
      List.dropWhile_eq_nil_iff.mpr (fun x hx => List.all_eq_true.mp hs x hx)
    unfold pyStrip
    rw [h1]
    rfl
  · intro u hu
    refine lookup_filterMap_none formUnits
      (fun unit =>
        if pyStrip (fget form (taskKeyFor unit) "") = "" then none
        else some (unit, pyStrip (fget form (taskKeyFor unit) ""))) ?_ u ?_
    · intro u' p hp
      dsimp only at hp
      by_cases hv : pyStrip (fget form (taskKeyFor u') "") = ""
      · rw [if_pos hv] at hp
        cases hp
      · rw [if_neg hv] at hp
        cases hp
        rfl
    · dsimp only
      rw [if_pos hu]

/-- C10 witness: a padded operation name is stripped, a whitespace-only string
strips to empty, and a whitespace-only task for 1st Platoon is excluded from
`tasks_to_subordinates`. -/
theorem form_strip_semantics_amended_witness :
    (_form_to_opord_data
        [("operation_name", "  IRON HAWK  "), ("task_1st", "   ")]).operation_name
      = pyStrip (fget [("operation_name", "  IRON HAWK  "), ("task_1st", "   ")]
          "operation_name" "")
    ∧ pyStrip "  \t " = ""
    ∧ lookupKey "1st Platoon (Rifle)"
        (_form_to_opord_data
          [("operation_name", "  IRON HAWK  "), ("task_1st", "   ")]).execution.tasks_to_subordinates
      = none := by
  have h := form_strip_semantics_amended
    [("operation_name", "  IRON HAWK  "), ("task_1st", "   ")]
  exact ⟨h.1.1, h.2.1 "  \t " (by decide), h.2.2.1 "1st Platoon (Rifle)" (by decide)⟩

end OpordWizard
